import Mathlib

/-!
Verification of the gesture classifier and bounding-box geometry of
`app/components/ObsceneGestureCensor.tsx`.

The source works on MediaPipe hand landmarks: 21 points with normalized
coordinates `x, y` (the `z` coordinate is never read by this logic).  We
model a landmark as a pair of rational numbers.

The source compares Euclidean distances (`Math.hypot`) against
nonnegative bounds.  Since `√a > c ↔ a > c²` and `√a < c ↔ a < c²` for
`a ≥ 0` and `c ≥ 0`, every such comparison is embedded exactly as the
corresponding comparison of squared distances against squared bounds;
this keeps every definition computable and every concrete instance
decidable, with no loss of precision (the constants 1.6, 0.15 and 0.08
are nonnegative, as is `distPIPMCP * 1.6`).
-/

/-- A hand landmark: normalized coordinates, `z` ignored by the classifier. -/
structure Landmark where
  x : ℚ
  y : ℚ
  deriving DecidableEq, Repr

/-- The four gestures the classifier can return (the source returns the
corresponding string, or `null`, which we model as `Option Gesture`). -/
inductive Gesture where
  | MIDDLE_FINGER
  | OK
  | GUN
  | THUMBS_DOWN
  deriving DecidableEq, Repr, Fintype

/-- Squared Euclidean distance between two landmarks.  The source's
`getDistance` is `Math.hypot(p1.x - p2.x, p1.y - p2.y)`, i.e. the square
root of this quantity; all uses compare it against nonnegative bounds and
are embedded as squared comparisons. -/
def getDistanceSq (p1 p2 : Landmark) : ℚ :=
  (p1.x - p2.x) ^ 2 + (p1.y - p2.y) ^ 2

/-- Openness test `isFingerOpen` from the source: `distTipMCP > distPIPMCP * 1.6`,
embedded squared: `distTipMCP² > distPIPMCP² * 1.6²` with `1.6² = 2.56`. -/
def isFingerOpen (tip pip mcp : Landmark) : Bool :=
  getDistanceSq tip mcp > getDistanceSq pip mcp * 2.56

/-- The guard of rule 1 (MIDDLE_FINGER) in `detectGesture`:
`middleOpen && !indexOpen && !ringOpen && !pinkyOpen`. -/
def middleFingerCond (indexOpen middleOpen ringOpen pinkyOpen : Bool) : Bool :=
  middleOpen && !indexOpen && !ringOpen && !pinkyOpen

/-- The guard of rule 2 (OK) in `detectGesture`:
`pinchDistance < 0.08 && middleOpen && ringOpen && pinkyOpen`,
with the pinch comparison passed in as a Bool. -/
def okCond (pinchClose middleOpen ringOpen pinkyOpen : Bool) : Bool :=
  pinchClose && middleOpen && ringOpen && pinkyOpen

/-- The full firing condition of rule 3 (GUN) in `detectGesture`: the outer
guard `thumbOpen && indexOpen && !middleOpen && !ringOpen && !pinkyOpen`
conjoined with the nested `isThumbUp` check. -/
def gunCond (indexOpen middleOpen ringOpen pinkyOpen thumbOpen thumbUp : Bool) : Bool :=
  thumbOpen && indexOpen && !middleOpen && !ringOpen && !pinkyOpen && thumbUp

/-- The full firing condition of rule 4 (THUMBS_DOWN) in `detectGesture`:
the outer guard `!indexOpen && !middleOpen && !ringOpen && !pinkyOpen`
conjoined with the nested `thumbOpen && isThumbDown` check. -/
def thumbsDownCond (indexOpen middleOpen ringOpen pinkyOpen thumbOpen thumbDown : Bool) : Bool :=
  !indexOpen && !middleOpen && !ringOpen && !pinkyOpen && (thumbOpen && thumbDown)

/-- The decision core of `detectGesture`, as a function of the boolean
signals the source computes from the landmarks.  It mirrors the source's
early-return control flow exactly: rule 3 is an outer `if` with a nested
`isThumbUp` test, and when the outer guard holds but the thumb is not up,
execution falls through to rule 4's check (which can never fire there,
since rule 3's guard forces `indexOpen`), and then to `return null`. -/
def classifyFromFlags (indexOpen middleOpen ringOpen pinkyOpen thumbOpen
    pinchClose thumbUp thumbDown : Bool) : Option Gesture :=
  -- 1. Middle Finger: middle open, others closed
  if middleOpen && !indexOpen && !ringOpen && !pinkyOpen then
    some Gesture.MIDDLE_FINGER
  -- 2. OK: index and thumb tips close, others open
  else if pinchClose && middleOpen && ringOpen && pinkyOpen then
    some Gesture.OK
  -- 3. Gun: thumb open, index open, others closed, with nested thumb-up test
  else if thumbOpen && indexOpen && !middleOpen && !ringOpen && !pinkyOpen then
    (if thumbUp then some Gesture.GUN
     -- inner test failed: fall through to rule 4 and then to `return null`
     else if !indexOpen && !middleOpen && !ringOpen && !pinkyOpen then
       (if thumbOpen && thumbDown then some Gesture.THUMBS_DOWN else none)
     else none)
  -- 4. Thumbs Down: all fingers closed, thumb open and down
  else if !indexOpen && !middleOpen && !ringOpen && !pinkyOpen then
    (if thumbOpen && thumbDown then some Gesture.THUMBS_DOWN else none)
  else none

/-- The classifier `detectGesture` from the source.  Each landmark read `landmarks[i]`
(whose `.x`/`.y` is then dereferenced) is modelled by `List.get? i`: an
out-of-range read in the source yields `undefined`, whose later property
access throws, modelled by the outer `none`.  A result `some g` means the
source returns normally with `g : Option Gesture` (`none` standing for
`null`).  Thresholds 0.15 and 0.08 appear squared (0.0225, 0.0064). -/
def detectGesture (landmarks : List Landmark) : Option (Option Gesture) :=
  match landmarks.get? 4, landmarks.get? 3, landmarks.get? 2,
      landmarks.get? 8, landmarks.get? 6, landmarks.get? 5,
      landmarks.get? 12, landmarks.get? 10, landmarks.get? 9,
      landmarks.get? 16, landmarks.get? 14, landmarks.get? 13,
      landmarks.get? 20, landmarks.get? 18, landmarks.get? 17 with
  | some thumbTip, some thumbIP, some _thumbMCP,
      some indexTip, some indexPIP, some indexMCP,
      some middleTip, some middlePIP, some middleMCP,
      some ringTip, some ringPIP, some ringMCP,
      some pinkyTip, some pinkyPIP, some pinkyMCP =>
    -- Check openness of fingers
    let indexOpen := isFingerOpen indexTip indexPIP indexMCP
    let middleOpen := isFingerOpen middleTip middlePIP middleMCP
    let ringOpen := isFingerOpen ringTip ringPIP ringMCP
    let pinkyOpen := isFingerOpen pinkyTip pinkyPIP pinkyMCP
    -- Thumb: tip far from index MCP (source: getDistance > 0.15)
    let thumbOpen : Bool := getDistanceSq thumbTip indexMCP > 0.0225
    -- Directional checks
    let thumbUp : Bool := thumbTip.y < thumbIP.y
    let thumbDown : Bool := thumbTip.y > thumbIP.y
    -- Pinch distance for rule 2 (source: getDistance < 0.08)
    let pinchClose : Bool := getDistanceSq thumbTip indexTip < 0.0064
    some (classifyFromFlags indexOpen middleOpen ringOpen pinkyOpen thumbOpen
      pinchClose thumbUp thumbDown)
  | _, _, _, _, _, _, _, _, _, _, _, _, _, _, _ => none

/-- Landmark access used to state properties: `landmarkAt l i` is the
`i`-th landmark of `l` (with a dummy default; every use is guarded by a
length hypothesis making the access in range). -/
def landmarkAt (l : List Landmark) (i : ℕ) : Landmark :=
  l.getD i ⟨0, 0⟩

/-- A bounding box in frame pixel coordinates, as returned by
`getHandBoundingBox`. -/
structure BBox where
  x : ℚ
  y : ℚ
  w : ℚ
  h : ℚ
  deriving DecidableEq, Repr

/-- One step of the `landmarks.forEach` loop in `getHandBoundingBox`:
updates the running `(minX, minY, maxX, maxY)` with one landmark. -/
def bboxStep : ℚ × ℚ × ℚ × ℚ → Landmark → ℚ × ℚ × ℚ × ℚ
  | (minX, minY, maxX, maxY), p =>
    (if p.x < minX then p.x else minX,
     if p.y < minY then p.y else minY,
     if p.x > maxX then p.x else maxX,
     if p.y > maxY then p.y else maxY)

/-- The function `getHandBoundingBox` from the source: fold the landmarks from the
initial accumulator `minX = 1, minY = 1, maxX = 0, maxY = 0`, add a
padding of 0.05 clipped to `[0, 1]`, then scale by the frame size. -/
def getHandBoundingBox (landmarks : List Landmark) (width height : ℚ) : BBox :=
  let s := landmarks.foldl bboxStep (1, 1, 0, 0)
  let minX := max 0 (s.1 - 0.05)
  let minY := max 0 (s.2.1 - 0.05)
  let maxX := min 1 (s.2.2.1 + 0.05)
  let maxY := min 1 (s.2.2.2 + 0.05)
  { x := minX * width
    y := minY * height
    w := (maxX - minX) * width
    h := (maxY - minY) * height }

/-! ### Unfolding `detectGesture` under the length precondition -/

theorem get?_eq_landmarkAt (l : List Landmark) (i : ℕ) (h : i < l.length) :
    l.get? i = some (landmarkAt l i) := by
  simp [landmarkAt, List.getD_eq_getElem?_getD, List.get?_eq_getElem?,
    List.getElem?_eq_getElem h]

/-- With at least 21 landmarks every access in `detectGesture` succeeds
and the result is the decision core applied to the geometric flags. -/
theorem detectGesture_eq (l : List Landmark) (h : 21 ≤ l.length) :
    detectGesture l = some (classifyFromFlags
      (isFingerOpen (landmarkAt l 8) (landmarkAt l 6) (landmarkAt l 5))
      (isFingerOpen (landmarkAt l 12) (landmarkAt l 10) (landmarkAt l 9))
      (isFingerOpen (landmarkAt l 16) (landmarkAt l 14) (landmarkAt l 13))
      (isFingerOpen (landmarkAt l 20) (landmarkAt l 18) (landmarkAt l 17))
      (decide (getDistanceSq (landmarkAt l 4) (landmarkAt l 5) > 0.0225))
      (decide (getDistanceSq (landmarkAt l 4) (landmarkAt l 8) < 0.0064))
      (decide ((landmarkAt l 4).y < (landmarkAt l 3).y))
      (decide ((landmarkAt l 4).y > (landmarkAt l 3).y))) := by
  rw [detectGesture,
    get?_eq_landmarkAt l 4 (by omega), get?_eq_landmarkAt l 3 (by omega),
    get?_eq_landmarkAt l 2 (by omega), get?_eq_landmarkAt l 8 (by omega),
    get?_eq_landmarkAt l 6 (by omega), get?_eq_landmarkAt l 5 (by omega),
    get?_eq_landmarkAt l 12 (by omega), get?_eq_landmarkAt l 10 (by omega),
    get?_eq_landmarkAt l 9 (by omega), get?_eq_landmarkAt l 16 (by omega),
    get?_eq_landmarkAt l 14 (by omega), get?_eq_landmarkAt l 13 (by omega),
    get?_eq_landmarkAt l 20 (by omega), get?_eq_landmarkAt l 18 (by omega),
    get?_eq_landmarkAt l 17 (by omega)]

/-! ### Concrete test inputs

`mkHand` builds a 21-landmark list used as concrete input for witnesses
and counterexamples.  Non-thumb fingers sit at columns 0.3 (index),
0.4 (middle), 0.5 (ring), 0.6 (pinky) with MCP at `y = 0.9` and PIP at
`y = 0.8`; a tip `y` of 0.6 makes the finger open by the ratio rule
(tip-to-MCP² = 0.09 > 2.56 · 0.01) and 0.85 makes it closed
(0.0025 ≤ 0.0256).  The thumb tip and IP are passed explicitly. -/

/-- Concrete 21-landmark test input builder (witness data, not source code). -/
def mkHand (thumbTip thumbIP : Landmark) (idxTipY midTipY ringTipY pinkTipY : ℚ) :
    List Landmark :=
  [⟨0.4, 0.95⟩, ⟨0.35, 0.92⟩, ⟨0.3, 0.91⟩, thumbIP, thumbTip,
   ⟨0.3, 0.9⟩, ⟨0.3, 0.8⟩, ⟨0.3, 0.7⟩, ⟨0.3, idxTipY⟩,
   ⟨0.4, 0.9⟩, ⟨0.4, 0.8⟩, ⟨0.4, 0.7⟩, ⟨0.4, midTipY⟩,
   ⟨0.5, 0.9⟩, ⟨0.5, 0.8⟩, ⟨0.5, 0.7⟩, ⟨0.5, ringTipY⟩,
   ⟨0.6, 0.9⟩, ⟨0.6, 0.8⟩, ⟨0.6, 0.7⟩, ⟨0.6, pinkTipY⟩]

/-- Middle finger open, index/ring/pinky closed, thumb away from the hand. -/
def middleFingerHand : List Landmark := mkHand ⟨0.1, 0.5⟩ ⟨0.1, 0.6⟩ 0.85 0.6 0.85 0.85

/-- Pinch (thumb tip close to index tip) with index, ring, pinky open but
middle closed: the configuration claimed to produce OK. -/
def okNoMiddleHand : List Landmark := mkHand ⟨0.3, 0.55⟩ ⟨0.3, 0.7⟩ 0.6 0.85 0.6 0.6

/-- Pinch with middle, ring, pinky open (index closed): the configuration
the code actually maps to OK. -/
def okPinchHand : List Landmark := mkHand ⟨0.3, 0.82⟩ ⟨0.3, 0.7⟩ 0.85 0.6 0.6 0.6

/-- Index open, middle/ring/pinky closed, thumb open and pointing up. -/
def gunHand : List Landmark := mkHand ⟨0.1, 0.5⟩ ⟨0.1, 0.6⟩ 0.6 0.85 0.85 0.85

/-- All four fingers closed, thumb open and pointing up (a thumbs-up pose). -/
def thumbsUpHand : List Landmark := mkHand ⟨0.1, 0.5⟩ ⟨0.1, 0.6⟩ 0.85 0.85 0.85 0.85

/-- All four fingers closed, thumb open and pointing down. -/
def thumbsDownHand : List Landmark := mkHand ⟨0.1, 0.7⟩ ⟨0.1, 0.6⟩ 0.85 0.85 0.85 0.85

/-! ### Claims about `detectGesture` -/

/-- C1: for every set of 21 landmarks in which the middle finger is open
by the distance-ratio rule and index, ring and pinky each fail it,
`detectGesture` returns MIDDLE_FINGER, regardless of the thumb landmarks. -/
theorem claim_C1_middle_finger (l : List Landmark) (hlen : 21 ≤ l.length)
    (hmid : isFingerOpen (landmarkAt l 12) (landmarkAt l 10) (landmarkAt l 9) = true)
    (hidx : isFingerOpen (landmarkAt l 8) (landmarkAt l 6) (landmarkAt l 5) = false)
    (hring : isFingerOpen (landmarkAt l 16) (landmarkAt l 14) (landmarkAt l 13) = false)
    (hpinky : isFingerOpen (landmarkAt l 20) (landmarkAt l 18) (landmarkAt l 17) = false) :
    detectGesture l = some (some Gesture.MIDDLE_FINGER) := by
  rw [detectGesture_eq l hlen, hmid, hidx, hring, hpinky]
  rfl

theorem claim_C1_middle_finger_witness :
    detectGesture middleFingerHand = some (some Gesture.MIDDLE_FINGER) :=
  claim_C1_middle_finger middleFingerHand (by decide)
    (by with_unfolding_all decide) (by with_unfolding_all decide)
    (by with_unfolding_all decide) (by with_unfolding_all decide)

/-- C2, counterexample: at `okNoMiddleHand` the pinch distance is below
0.08 and index, ring and pinky are open by the ratio rule, yet
`detectGesture` does not return OK (the OK rule requires the middle
finger open, not the index). -/
theorem claim_C2_ok_counterexample :
    getDistanceSq (landmarkAt okNoMiddleHand 4) (landmarkAt okNoMiddleHand 8) < 0.0064
    ∧ isFingerOpen (landmarkAt okNoMiddleHand 8) (landmarkAt okNoMiddleHand 6)
        (landmarkAt okNoMiddleHand 5) = true
    ∧ isFingerOpen (landmarkAt okNoMiddleHand 16) (landmarkAt okNoMiddleHand 14)
        (landmarkAt okNoMiddleHand 13) = true
    ∧ isFingerOpen (landmarkAt okNoMiddleHand 20) (landmarkAt okNoMiddleHand 18)
        (landmarkAt okNoMiddleHand 17) = true
    ∧ detectGesture okNoMiddleHand ≠ some (some Gesture.OK) := by
  with_unfolding_all decide

/-- C2, amended: for every set of 21 landmarks with thumb-TIP-to-index-TIP
distance strictly below 0.08 and with middle, ring and pinky each open by
the 1.6 distance-ratio rule (a ratio of exactly 1.6 counting as not
open), `detectGesture` returns OK. -/
theorem claim_C2_ok_amended (l : List Landmark) (hlen : 21 ≤ l.length)
    (hpinch : getDistanceSq (landmarkAt l 4) (landmarkAt l 8) < 0.0064)
    (hmid : isFingerOpen (landmarkAt l 12) (landmarkAt l 10) (landmarkAt l 9) = true)
    (hring : isFingerOpen (landmarkAt l 16) (landmarkAt l 14) (landmarkAt l 13) = true)
    (hpinky : isFingerOpen (landmarkAt l 20) (landmarkAt l 18) (landmarkAt l 17) = true) :
    detectGesture l = some (some Gesture.OK) := by
  rw [detectGesture_eq l hlen, hmid, hring, hpinky, decide_eq_true hpinch]
  simp [classifyFromFlags]

theorem claim_C2_ok_amended_witness :
    detectGesture okPinchHand = some (some Gesture.OK) :=
  claim_C2_ok_amended okPinchHand (by decide)
    (by with_unfolding_all decide) (by with_unfolding_all decide)
    (by with_unfolding_all decide) (by with_unfolding_all decide)

/-- C3: with thumb open (thumb-TIP-to-index-MCP distance above 0.15),
index open, middle/ring/pinky closed and the thumb pointing up
(tip `y` strictly below IP `y`), `detectGesture` returns GUN; in the same
configuration with the index closed it does not return GUN. -/
theorem claim_C3_gun :
    (∀ l : List Landmark, 21 ≤ l.length →
      getDistanceSq (landmarkAt l 4) (landmarkAt l 5) > 0.0225 →
      isFingerOpen (landmarkAt l 8) (landmarkAt l 6) (landmarkAt l 5) = true →
      isFingerOpen (landmarkAt l 12) (landmarkAt l 10) (landmarkAt l 9) = false →
      isFingerOpen (landmarkAt l 16) (landmarkAt l 14) (landmarkAt l 13) = false →
      isFingerOpen (landmarkAt l 20) (landmarkAt l 18) (landmarkAt l 17) = false →
      (landmarkAt l 4).y < (landmarkAt l 3).y →
      detectGesture l = some (some Gesture.GUN))
    ∧ (∀ l : List Landmark, 21 ≤ l.length →
      getDistanceSq (landmarkAt l 4) (landmarkAt l 5) > 0.0225 →
      isFingerOpen (landmarkAt l 8) (landmarkAt l 6) (landmarkAt l 5) = false →
      isFingerOpen (landmarkAt l 12) (landmarkAt l 10) (landmarkAt l 9) = false →
      isFingerOpen (landmarkAt l 16) (landmarkAt l 14) (landmarkAt l 13) = false →
      isFingerOpen (landmarkAt l 20) (landmarkAt l 18) (landmarkAt l 17) = false →
      (landmarkAt l 4).y < (landmarkAt l 3).y →
      detectGesture l ≠ some (some Gesture.GUN)) := by
  constructor
  · intro l hlen hthumb hidx hmid hring hpinky hup
    rw [detectGesture_eq l hlen, hidx, hmid, hring, hpinky,
      decide_eq_true hthumb, decide_eq_true hup]
    simp [classifyFromFlags]
  · intro l hlen hthumb hidx hmid hring hpinky hup
    have hdown : decide ((landmarkAt l 4).y > (landmarkAt l 3).y) = false :=
      decide_eq_false fun hgt => lt_asymm hup hgt
    rw [detectGesture_eq l hlen, hidx, hmid, hring, hpinky,
      decide_eq_true hthumb, decide_eq_true hup, hdown]
    simp [classifyFromFlags]

theorem claim_C3_gun_witness :
    detectGesture gunHand = some (some Gesture.GUN)
    ∧ detectGesture thumbsUpHand ≠ some (some Gesture.GUN) :=
  ⟨claim_C3_gun.1 gunHand (by decide)
      (by with_unfolding_all decide) (by with_unfolding_all decide)
      (by with_unfolding_all decide) (by with_unfolding_all decide)
      (by with_unfolding_all decide) (by with_unfolding_all decide),
   claim_C3_gun.2 thumbsUpHand (by decide)
      (by with_unfolding_all decide) (by with_unfolding_all decide)
      (by with_unfolding_all decide) (by with_unfolding_all decide)
      (by with_unfolding_all decide) (by with_unfolding_all decide)⟩

/-- C4: a thumbs-up pose — index, middle, ring and pinky closed by the
ratio rule, thumb open and thumb tip strictly above the thumb IP —
matches no gesture: `detectGesture` returns `none` (the source's
`null`). -/
theorem claim_C4_thumbs_up_none (l : List Landmark) (hlen : 21 ≤ l.length)
    (hidx : isFingerOpen (landmarkAt l 8) (landmarkAt l 6) (landmarkAt l 5) = false)
    (hmid : isFingerOpen (landmarkAt l 12) (landmarkAt l 10) (landmarkAt l 9) = false)
    (hring : isFingerOpen (landmarkAt l 16) (landmarkAt l 14) (landmarkAt l 13) = false)
    (hpinky : isFingerOpen (landmarkAt l 20) (landmarkAt l 18) (landmarkAt l 17) = false)
    (hthumb : getDistanceSq (landmarkAt l 4) (landmarkAt l 5) > 0.0225)
    (hup : (landmarkAt l 4).y < (landmarkAt l 3).y) :
    detectGesture l = some none := by
  have hdown : decide ((landmarkAt l 4).y > (landmarkAt l 3).y) = false :=
    decide_eq_false fun hgt => lt_asymm hup hgt
  rw [detectGesture_eq l hlen, hidx, hmid, hring, hpinky,
    decide_eq_true hthumb, decide_eq_true hup, hdown]
  simp [classifyFromFlags]

theorem claim_C4_thumbs_up_none_witness :
    detectGesture thumbsUpHand = some none :=
  claim_C4_thumbs_up_none thumbsUpHand (by decide)
    (by with_unfolding_all decide) (by with_unfolding_all decide)
    (by with_unfolding_all decide) (by with_unfolding_all decide)
    (by with_unfolding_all decide) (by with_unfolding_all decide)

/-- C5: with all four fingers closed and the thumb open, `detectGesture`
returns THUMBS_DOWN exactly when the thumb tip's `y` is strictly greater
than the thumb IP's `y`; at the boundary `tip.y = ip.y` the thumb is
neither up nor down and the result is `none`. -/
theorem claim_C5_thumbs_down (l : List Landmark) (hlen : 21 ≤ l.length)
    (hidx : isFingerOpen (landmarkAt l 8) (landmarkAt l 6) (landmarkAt l 5) = false)
    (hmid : isFingerOpen (landmarkAt l 12) (landmarkAt l 10) (landmarkAt l 9) = false)
    (hring : isFingerOpen (landmarkAt l 16) (landmarkAt l 14) (landmarkAt l 13) = false)
    (hpinky : isFingerOpen (landmarkAt l 20) (landmarkAt l 18) (landmarkAt l 17) = false)
    (hthumb : getDistanceSq (landmarkAt l 4) (landmarkAt l 5) > 0.0225) :
    (detectGesture l = some (some Gesture.THUMBS_DOWN)
      ↔ (landmarkAt l 4).y > (landmarkAt l 3).y)
    ∧ ((landmarkAt l 4).y = (landmarkAt l 3).y → detectGesture l = some none) := by
  rw [detectGesture_eq l hlen, hidx, hmid, hring, hpinky, decide_eq_true hthumb]
  constructor
  · by_cases hd : (landmarkAt l 4).y > (landmarkAt l 3).y
    · rw [decide_eq_true hd]
      simp [classifyFromFlags, hd]
    · rw [decide_eq_false hd]
      simp [classifyFromFlags, hd]
  · intro heq
    have hdown : decide ((landmarkAt l 4).y > (landmarkAt l 3).y) = false :=
      decide_eq_false fun hgt => absurd hgt (by rw [heq]; exact lt_irrefl _)
    have hup : decide ((landmarkAt l 4).y < (landmarkAt l 3).y) = false :=
      decide_eq_false fun hlt => absurd hlt (by rw [heq]; exact lt_irrefl _)
    rw [hdown, hup]
    simp [classifyFromFlags]

theorem claim_C5_thumbs_down_witness :
    detectGesture thumbsDownHand = some (some Gesture.THUMBS_DOWN) :=
  (claim_C5_thumbs_down thumbsDownHand (by decide)
    (by with_unfolding_all decide) (by with_unfolding_all decide)
    (by with_unfolding_all decide) (by with_unfolding_all decide)
    (by with_unfolding_all decide)).1.mpr (by with_unfolding_all decide)

/-- C7: `detectGesture` is deterministic — two invocations on identical
landmark inputs give identical outputs.  In this embedding the classifier
is a mathematical function of the landmark list alone (it closes over no
mutable state in the source), so the result depends only on the current
frame's landmarks. -/
theorem claim_C7_deterministic (l1 l2 : List Landmark) (h : l1 = l2) :
    detectGesture l1 = detectGesture l2 := by
  rw [h]

theorem claim_C7_deterministic_witness :
    detectGesture middleFingerHand = detectGesture middleFingerHand :=
  claim_C7_deterministic middleFingerHand middleFingerHand rfl

/-- C8: `detectGesture` is total on its precondition — on any list of at
least 21 landmarks every landmark access succeeds (the result is `some _`,
never the outer `none` that models a thrown property access) and the
returned value is `null` or one of the four gesture strings. -/
theorem claim_C8_total (l : List Landmark) (h : 21 ≤ l.length) :
    ∃ g : Option Gesture, detectGesture l = some g ∧
      (g = none ∨ g = some Gesture.MIDDLE_FINGER ∨ g = some Gesture.OK ∨
        g = some Gesture.GUN ∨ g = some Gesture.THUMBS_DOWN) := by
  have hcases : ∀ g : Option Gesture,
      g = none ∨ g = some Gesture.MIDDLE_FINGER ∨ g = some Gesture.OK ∨
        g = some Gesture.GUN ∨ g = some Gesture.THUMBS_DOWN := by
    intro g
    rcases g with _ | g
    · exact Or.inl rfl
    · rcases g <;> simp
  exact ⟨_, detectGesture_eq l h, hcases _⟩

theorem claim_C8_total_witness :
    ∃ g : Option Gesture, detectGesture gunHand = some g ∧
      (g = none ∨ g = some Gesture.MIDDLE_FINGER ∨ g = some Gesture.OK ∨
        g = some Gesture.GUN ∨ g = some Gesture.THUMBS_DOWN) :=
  claim_C8_total gunHand (by decide)

/-! ### C9: mutual exclusivity of the four rule conditions

The boolean signals of `detectGesture`, as functions of the landmark
list (the source's local `const` bindings). -/

/-- Signal `indexOpen` as computed by `detectGesture`. -/
def indexOpen (l : List Landmark) : Bool :=
  isFingerOpen (landmarkAt l 8) (landmarkAt l 6) (landmarkAt l 5)

/-- Signal `middleOpen` as computed by `detectGesture`. -/
def middleOpen (l : List Landmark) : Bool :=
  isFingerOpen (landmarkAt l 12) (landmarkAt l 10) (landmarkAt l 9)

/-- Signal `ringOpen` as computed by `detectGesture`. -/
def ringOpen (l : List Landmark) : Bool :=
  isFingerOpen (landmarkAt l 16) (landmarkAt l 14) (landmarkAt l 13)

/-- Signal `pinkyOpen` as computed by `detectGesture`. -/
def pinkyOpen (l : List Landmark) : Bool :=
  isFingerOpen (landmarkAt l 20) (landmarkAt l 18) (landmarkAt l 17)

/-- Signal `thumbOpen` as computed by `detectGesture` (squared comparison). -/
def thumbOpen (l : List Landmark) : Bool :=
  getDistanceSq (landmarkAt l 4) (landmarkAt l 5) > 0.0225

/-- Signal `isThumbUp` as computed by `detectGesture`. -/
def thumbUp (l : List Landmark) : Bool :=
  (landmarkAt l 4).y < (landmarkAt l 3).y

/-- Signal `isThumbDown` as computed by `detectGesture`. -/
def thumbDown (l : List Landmark) : Bool :=
  (landmarkAt l 4).y > (landmarkAt l 3).y

/-- Signal `pinchDistance < 0.08` as computed by `detectGesture` (squared). -/
def pinchClose (l : List Landmark) : Bool :=
  getDistanceSq (landmarkAt l 4) (landmarkAt l 8) < 0.0064

/-- The firing condition of each gesture rule as a function of the
boolean signals. -/
def ruleCond (g : Gesture) (i m r p t pinch up down : Bool) : Bool :=
  match g with
  | Gesture.MIDDLE_FINGER => middleFingerCond i m r p
  | Gesture.OK => okCond pinch m r p
  | Gesture.GUN => gunCond i m r p t up
  | Gesture.THUMBS_DOWN => thumbsDownCond i m r p t down

/-- The order in which `detectGesture` checks the four rules. -/
def ruleOrder : List Gesture :=
  [Gesture.MIDDLE_FINGER, Gesture.OK, Gesture.GUN, Gesture.THUMBS_DOWN]

/-- First-match evaluation of a list of rules over the boolean signals. -/
def firstMatch (order : List Gesture) (i m r p t pinch up down : Bool) : Option Gesture :=
  order.find? fun g => ruleCond g i m r p t pinch up down

/-- At most one rule condition holds for any value of the signals. -/
theorem ruleCond_unique (i m r p t pinch up down : Bool) (a b : Gesture)
    (ha : ruleCond a i m r p t pinch up down = true)
    (hb : ruleCond b i m r p t pinch up down = true) : a = b := by
  revert ha hb
  revert a b i m r p t pinch up down
  decide

/-- List lookup `find?` is invariant under permutation when at most one element can
satisfy the predicate. -/
theorem find?_eq_of_perm {α : Type} (p : α → Bool) {l1 l2 : List α}
    (h : l1.Perm l2) (hu : ∀ a b, p a = true → p b = true → a = b) :
    l1.find? p = l2.find? p := by
  cases h1 : l1.find? p with
  | none =>
    rw [List.find?_eq_none] at h1
    symm
    rw [List.find?_eq_none]
    intro x hx
    exact h1 x (h.mem_iff.mpr hx)
  | some a =>
    have hpa := List.find?_some h1
    have hmem := List.mem_of_find?_eq_some h1
    have hex : (l2.find? p).isSome := by
      rw [List.find?_isSome]
      exact ⟨a, h.mem_iff.mp hmem, hpa⟩
    obtain ⟨b, hb⟩ := Option.isSome_iff_exists.mp hex
    rw [hb, hu a b hpa (List.find?_some hb)]

/-- Canonical-order first-match evaluation agrees with the source's
decision core. -/
theorem firstMatch_ruleOrder (i m r p t pinch up down : Bool) :
    firstMatch ruleOrder i m r p t pinch up down =
      classifyFromFlags i m r p t pinch up down := by
  revert i m r p t pinch up down
  decide

/-- C9: the four gesture conditions tested by `detectGesture` are
pairwise mutually exclusive for every landmark list (hence for every
21-landmark set), and consequently first-match evaluation of the four
rules gives the source's result under every ordering of the rules. -/
theorem claim_C9_rules_exclusive :
    (∀ l : List Landmark,
      ¬(middleFingerCond (indexOpen l) (middleOpen l) (ringOpen l) (pinkyOpen l) = true
        ∧ okCond (pinchClose l) (middleOpen l) (ringOpen l) (pinkyOpen l) = true)
      ∧ ¬(middleFingerCond (indexOpen l) (middleOpen l) (ringOpen l) (pinkyOpen l) = true
        ∧ gunCond (indexOpen l) (middleOpen l) (ringOpen l) (pinkyOpen l)
            (thumbOpen l) (thumbUp l) = true)
      ∧ ¬(middleFingerCond (indexOpen l) (middleOpen l) (ringOpen l) (pinkyOpen l) = true
        ∧ thumbsDownCond (indexOpen l) (middleOpen l) (ringOpen l) (pinkyOpen l)
            (thumbOpen l) (thumbDown l) = true)
      ∧ ¬(okCond (pinchClose l) (middleOpen l) (ringOpen l) (pinkyOpen l) = true
        ∧ gunCond (indexOpen l) (middleOpen l) (ringOpen l) (pinkyOpen l)
            (thumbOpen l) (thumbUp l) = true)
      ∧ ¬(okCond (pinchClose l) (middleOpen l) (ringOpen l) (pinkyOpen l) = true
        ∧ thumbsDownCond (indexOpen l) (middleOpen l) (ringOpen l) (pinkyOpen l)
            (thumbOpen l) (thumbDown l) = true)
      ∧ ¬(gunCond (indexOpen l) (middleOpen l) (ringOpen l) (pinkyOpen l)
            (thumbOpen l) (thumbUp l) = true
        ∧ thumbsDownCond (indexOpen l) (middleOpen l) (ringOpen l) (pinkyOpen l)
            (thumbOpen l) (thumbDown l) = true))
    ∧ (∀ order : List Gesture, order.Perm ruleOrder →
        ∀ i m r p t pinch up down : Bool,
          firstMatch order i m r p t pinch up down =
            classifyFromFlags i m r p t pinch up down) := by
  constructor
  · intro l
    refine ⟨?_, ?_, ?_, ?_, ?_, ?_⟩ <;>
      · rintro ⟨ha, hb⟩
        first
        | exact absurd (ruleCond_unique (indexOpen l) (middleOpen l) (ringOpen l)
            (pinkyOpen l) (thumbOpen l) (pinchClose l) (thumbUp l) (thumbDown l)
            Gesture.MIDDLE_FINGER Gesture.OK ha hb) (by decide)
        | exact absurd (ruleCond_unique (indexOpen l) (middleOpen l) (ringOpen l)
            (pinkyOpen l) (thumbOpen l) (pinchClose l) (thumbUp l) (thumbDown l)
            Gesture.MIDDLE_FINGER Gesture.GUN ha hb) (by decide)
        | exact absurd (ruleCond_unique (indexOpen l) (middleOpen l) (ringOpen l)
            (pinkyOpen l) (thumbOpen l) (pinchClose l) (thumbUp l) (thumbDown l)
            Gesture.MIDDLE_FINGER Gesture.THUMBS_DOWN ha hb) (by decide)
        | exact absurd (ruleCond_unique (indexOpen l) (middleOpen l) (ringOpen l)
            (pinkyOpen l) (thumbOpen l) (pinchClose l) (thumbUp l) (thumbDown l)
            Gesture.OK Gesture.GUN ha hb) (by decide)
        | exact absurd (ruleCond_unique (indexOpen l) (middleOpen l) (ringOpen l)
            (pinkyOpen l) (thumbOpen l) (pinchClose l) (thumbUp l) (thumbDown l)
            Gesture.OK Gesture.THUMBS_DOWN ha hb) (by decide)
        | exact absurd (ruleCond_unique (indexOpen l) (middleOpen l) (ringOpen l)
            (pinkyOpen l) (thumbOpen l) (pinchClose l) (thumbUp l) (thumbDown l)
            Gesture.GUN Gesture.THUMBS_DOWN ha hb) (by decide)
  · intro order hperm i m r p t pinch up down
    have := find?_eq_of_perm (fun g => ruleCond g i m r p t pinch up down) hperm
      (ruleCond_unique i m r p t pinch up down)
    exact this.trans (firstMatch_ruleOrder i m r p t pinch up down)

theorem claim_C9_rules_exclusive_witness :
    firstMatch ruleOrder true false false false true false true false =
      classifyFromFlags true false false false true false true false :=
  claim_C9_rules_exclusive.2 ruleOrder (List.Perm.refl ruleOrder)
    true false false false true false true false

/-! ### The bounding box: C6 and C10 -/

/-- Minimum of a coordinate over a landmark list (meaningful for
nonempty lists; the `[]` value is irrelevant and only keeps the function
total). -/
def coordMin (f : Landmark → ℚ) : List Landmark → ℚ
  | [] => 1
  | p :: ps => ps.foldl (fun m q => min m (f q)) (f p)

/-- Maximum of a coordinate over a landmark list (meaningful for
nonempty lists). -/
def coordMax (f : Landmark → ℚ) : List Landmark → ℚ
  | [] => 0
  | p :: ps => ps.foldl (fun m q => max m (f q)) (f p)

/-- The bounding box as the spec describes it (§4.3): the minimal
axis-aligned rectangle enclosing all landmarks in normalized
coordinates, expanded by a padding of 0.05 in each direction, clipped to
the unit square, then scaled by the frame dimensions.  Stated for
comparison with the source's `getHandBoundingBox`. -/
def specHandBoundingBox (landmarks : List Landmark) (width height : ℚ) : BBox :=
  let minX := max 0 (coordMin Landmark.x landmarks - 0.05)
  let minY := max 0 (coordMin Landmark.y landmarks - 0.05)
  let maxX := min 1 (coordMax Landmark.x landmarks + 0.05)
  let maxY := min 1 (coordMax Landmark.y landmarks + 0.05)
  { x := minX * width
    y := minY * height
    w := (maxX - minX) * width
    h := (maxY - minY) * height }

theorem if_lt_eq_min (q m : ℚ) : (if q < m then q else m) = min m q := by
  rcases lt_or_le q m with h | h
  · rw [if_pos h, min_eq_right h.le]
  · rw [if_neg (not_lt.mpr h), min_eq_left h]

theorem if_gt_eq_max (q m : ℚ) : (if q > m then q else m) = max m q := by
  rcases lt_or_le m q with h | h
  · rw [if_pos h, max_eq_right h.le]
  · rw [if_neg (not_lt.mpr h), max_eq_left h]

/-- The `bboxStep` fold computes the four coordinate folds componentwise. -/
theorem bboxStep_foldl (l : List Landmark) (a b c d : ℚ) :
    l.foldl bboxStep (a, b, c, d) =
      (l.foldl (fun m q => min m q.x) a,
       l.foldl (fun m q => min m q.y) b,
       l.foldl (fun m q => max m q.x) c,
       l.foldl (fun m q => max m q.y) d) := by
  induction l generalizing a b c d with
  | nil => rfl
  | cons p ps ih =>
    have hstep : bboxStep (a, b, c, d) p =
        (min a p.x, min b p.y, max c p.x, max d p.y) := by
      show (if p.x < a then p.x else a, if p.y < b then p.y else b,
            if p.x > c then p.x else c, if p.y > d then p.y else d) = _
      rw [if_lt_eq_min, if_lt_eq_min, if_gt_eq_max, if_gt_eq_max]
    simp only [List.foldl_cons, hstep, ih]

theorem foldl_min_init (f : Landmark → ℚ) (l : List Landmark) (a b : ℚ) :
    l.foldl (fun m q => min m (f q)) (min a b) =
      min a (l.foldl (fun m q => min m (f q)) b) := by
  induction l generalizing b with
  | nil => rfl
  | cons p ps ih =>
    simp only [List.foldl_cons]
    rw [min_assoc, ih]

theorem foldl_max_init (f : Landmark → ℚ) (l : List Landmark) (a b : ℚ) :
    l.foldl (fun m q => max m (f q)) (max a b) =
      max a (l.foldl (fun m q => max m (f q)) b) := by
  induction l generalizing b with
  | nil => rfl
  | cons p ps ih =>
    simp only [List.foldl_cons]
    rw [max_assoc, ih]

theorem foldl_min_le (f : Landmark → ℚ) (l : List Landmark) (a : ℚ) :
    l.foldl (fun m q => min m (f q)) a ≤ a := by
  induction l generalizing a with
  | nil => exact le_refl a
  | cons p ps ih => exact le_trans (ih (min a (f p))) (min_le_left a (f p))

theorem le_foldl_max (f : Landmark → ℚ) (l : List Landmark) (a : ℚ) :
    a ≤ l.foldl (fun m q => max m (f q)) a := by
  induction l generalizing a with
  | nil => exact le_refl a
  | cons p ps ih => exact le_trans (le_max_left a (f p)) (ih (max a (f p)))

/-- The source's min fold over a nonempty list, from its initial value 1. -/
theorem foldl_min_one (f : Landmark → ℚ) (p : Landmark) (ps : List Landmark) :
    (p :: ps).foldl (fun m q => min m (f q)) 1 = min 1 (coordMin f (p :: ps)) := by
  show ps.foldl (fun m q => min m (f q)) (min 1 (f p)) = _
  rw [foldl_min_init]
  rfl

/-- The source's max fold over a nonempty list, from its initial value 0. -/
theorem foldl_max_zero (f : Landmark → ℚ) (p : Landmark) (ps : List Landmark) :
    (p :: ps).foldl (fun m q => max m (f q)) 0 = max 0 (coordMax f (p :: ps)) := by
  show ps.foldl (fun m q => max m (f q)) (max 0 (f p)) = _
  rw [foldl_max_init]
  rfl

/-- Landmarks spanning normalized `x ∈ [0.2, 0.6]`, `y ∈ [0.3, 0.5]`
(21 points), for the concrete bounding-box example. -/
def bboxHand : List Landmark :=
  [⟨0.2, 0.3⟩, ⟨0.6, 0.5⟩, ⟨0.4, 0.4⟩, ⟨0.4, 0.4⟩, ⟨0.4, 0.4⟩,
   ⟨0.4, 0.4⟩, ⟨0.4, 0.4⟩, ⟨0.4, 0.4⟩, ⟨0.4, 0.4⟩, ⟨0.4, 0.4⟩,
   ⟨0.4, 0.4⟩, ⟨0.4, 0.4⟩, ⟨0.4, 0.4⟩, ⟨0.4, 0.4⟩, ⟨0.4, 0.4⟩,
   ⟨0.4, 0.4⟩, ⟨0.4, 0.4⟩, ⟨0.4, 0.4⟩, ⟨0.4, 0.4⟩, ⟨0.4, 0.4⟩, ⟨0.4, 0.4⟩]

set_option maxRecDepth 8000 in
/-- C6: for 21 landmarks with normalized coordinates in `[0, 1]`,
`getHandBoundingBox` returns exactly the spec's rectangle — the minimal
enclosing box, padded by 0.05 per side, clipped to the unit square and
scaled by the frame size — and on the concrete example spanning
`x ∈ [0.2, 0.6]`, `y ∈ [0.3, 0.5]` at 640×480 it returns
`x = 0.15·640, y = 0.25·480, w = 0.5·640, h = 0.3·480`. -/
theorem claim_C6_bounding_box :
    (∀ (l : List Landmark) (width height : ℚ), l.length = 21 →
      (∀ q ∈ l, 0 ≤ q.x ∧ q.x ≤ 1 ∧ 0 ≤ q.y ∧ q.y ≤ 1) →
      getHandBoundingBox l width height = specHandBoundingBox l width height)
    ∧ getHandBoundingBox bboxHand 640 480 = { x := 96, y := 120, w := 320, h := 144 } := by
  constructor
  · intro l width height hlen hb
    obtain ⟨p, ps, rfl⟩ : ∃ p ps, l = p :: ps := by
      cases l with
      | nil => simp at hlen
      | cons p ps => exact ⟨p, ps, rfl⟩
    obtain ⟨hx0, hx1, hy0, hy1⟩ := hb p (List.mem_cons_self p ps)
    have hminx : (p :: ps).foldl (fun m q => min m q.x) 1 =
        coordMin Landmark.x (p :: ps) := by
      rw [foldl_min_one]
      exact min_eq_right (le_trans (foldl_min_le _ _ _) hx1)
    have hminy : (p :: ps).foldl (fun m q => min m q.y) 1 =
        coordMin Landmark.y (p :: ps) := by
      rw [foldl_min_one]
      exact min_eq_right (le_trans (foldl_min_le _ _ _) hy1)
    have hmaxx : (p :: ps).foldl (fun m q => max m q.x) 0 =
        coordMax Landmark.x (p :: ps) := by
      rw [foldl_max_zero]
      exact max_eq_right (le_trans hx0 (le_foldl_max _ _ _))
    have hmaxy : (p :: ps).foldl (fun m q => max m q.y) 0 =
        coordMax Landmark.y (p :: ps) := by
      rw [foldl_max_zero]
      exact max_eq_right (le_trans hy0 (le_foldl_max _ _ _))
    simp only [getHandBoundingBox, specHandBoundingBox, bboxStep_foldl,
      hminx, hminy, hmaxx, hmaxy]
  · with_unfolding_all decide

theorem claim_C6_bounding_box_witness :
    getHandBoundingBox bboxHand 640 480 = specHandBoundingBox bboxHand 640 480 :=
  claim_C6_bounding_box.1 bboxHand 640 480 (by decide) (by with_unfolding_all decide)

/-- C10: for 21 landmarks with normalized coordinates in `[0, 1]` and
nonnegative frame dimensions, the returned rectangle lies entirely
within the frame. -/
theorem claim_C10_box_within_frame (l : List Landmark) (width height : ℚ)
    (hlen : l.length = 21)
    (hb : ∀ q ∈ l, 0 ≤ q.x ∧ q.x ≤ 1 ∧ 0 ≤ q.y ∧ q.y ≤ 1)
    (hw : 0 ≤ width) (hh : 0 ≤ height) :
    0 ≤ (getHandBoundingBox l width height).x
    ∧ 0 ≤ (getHandBoundingBox l width height).y
    ∧ 0 ≤ (getHandBoundingBox l width height).w
    ∧ 0 ≤ (getHandBoundingBox l width height).h
    ∧ (getHandBoundingBox l width height).x + (getHandBoundingBox l width height).w ≤ width
    ∧ (getHandBoundingBox l width height).y + (getHandBoundingBox l width height).h ≤ height := by
  obtain ⟨p, ps, rfl⟩ : ∃ p ps, l = p :: ps := by
    cases l with
    | nil => simp at hlen
    | cons p ps => exact ⟨p, ps, rfl⟩
  simp only [getHandBoundingBox, bboxStep_foldl]
  set A := (p :: ps).foldl (fun m q => min m q.x) 1 with hAdef
  set B := (p :: ps).foldl (fun m q => min m q.y) 1 with hBdef
  set C := (p :: ps).foldl (fun m q => max m q.x) 0 with hCdef
  set D := (p :: ps).foldl (fun m q => max m q.y) 0 with hDdef
  have hA1 : A ≤ 1 := foldl_min_le _ _ _
  have hB1 : B ≤ 1 := foldl_min_le _ _ _
  have hC0 : (0 : ℚ) ≤ C := le_foldl_max _ _ _
  have hD0 : (0 : ℚ) ≤ D := le_foldl_max _ _ _
  have hAC : A ≤ C := by
    rw [hAdef, hCdef, foldl_min_one, foldl_max_zero]
    refine le_trans (min_le_right _ _) (le_trans ?_ (le_max_right _ _))
    exact le_trans (foldl_min_le _ _ _) (le_foldl_max _ _ _)
  have hBD : B ≤ D := by
    rw [hBdef, hDdef, foldl_min_one, foldl_max_zero]
    refine le_trans (min_le_right _ _) (le_trans ?_ (le_max_right _ _))
    exact le_trans (foldl_min_le _ _ _) (le_foldl_max _ _ _)
  have hx : max 0 (A - 0.05) ≤ min 1 (C + 0.05) := by
    apply max_le
    · exact le_min (by norm_num) (by linarith)
    · exact le_min (by linarith) (by linarith)
  have hy : max 0 (B - 0.05) ≤ min 1 (D + 0.05) := by
    apply max_le
    · exact le_min (by norm_num) (by linarith)
    · exact le_min (by linarith) (by linarith)
  refine ⟨mul_nonneg (le_max_left _ _) hw, mul_nonneg (le_max_left _ _) hh,
    mul_nonneg (sub_nonneg.mpr hx) hw, mul_nonneg (sub_nonneg.mpr hy) hh, ?_, ?_⟩
  · have e : max 0 (A - 0.05) * width + (min 1 (C + 0.05) - max 0 (A - 0.05)) * width
        = min 1 (C + 0.05) * width := by ring
    rw [e]
    exact (mul_le_mul_of_nonneg_right (min_le_left _ _) hw).trans_eq (one_mul _)
  · have e : max 0 (B - 0.05) * height + (min 1 (D + 0.05) - max 0 (B - 0.05)) * height
        = min 1 (D + 0.05) * height := by ring
    rw [e]
    exact (mul_le_mul_of_nonneg_right (min_le_left _ _) hh).trans_eq (one_mul _)

theorem claim_C10_box_within_frame_witness :
    0 ≤ (getHandBoundingBox bboxHand 640 480).x
    ∧ 0 ≤ (getHandBoundingBox bboxHand 640 480).y
    ∧ 0 ≤ (getHandBoundingBox bboxHand 640 480).w
    ∧ 0 ≤ (getHandBoundingBox bboxHand 640 480).h
    ∧ (getHandBoundingBox bboxHand 640 480).x + (getHandBoundingBox bboxHand 640 480).w ≤ 640
    ∧ (getHandBoundingBox bboxHand 640 480).y + (getHandBoundingBox bboxHand 640 480).h ≤ 480 :=
  claim_C10_box_within_frame bboxHand 640 480 (by decide)
    (by with_unfolding_all decide) (by with_unfolding_all decide)
    (by with_unfolding_all decide)
